import Mathlib

/-!
Verification of the 2024 eCTF Application Processor (AP) firmware
(`application_processor.c`) against its natural-language specification.

The AP's pure control logic is shallowly embedded here.  External
collaborators (the I2C bus driver, flash primitives, AES, the keyed hash,
the CSPRNG) and the message layer `ap_messaging.c` (whose source is not
part of this development; its behaviour is modelled from the spec) are
represented by explicit environment/oracle parameters: each bus exchange
is an `IssueOutcome` supplied by the environment, and the crypto
primitives are opaque function parameters.  Machine integers are `Nat`
with explicit `% 2^w` where relevant; C `int` return codes are `Int`.
-/

/-- `SUCCESS_RETURN` from `application_processor.c`. -/
def SUCCESS_RETURN : Int := 0

/-- `ERROR_RETURN` from `application_processor.c`. -/
def ERROR_RETURN : Int := -1

/-- `UINT32_MAX`, the all-ones 32-bit value written as a failing boot verdict. -/
def UINT32_MAX : Nat := 4294967295

/-- `COMPONENT_CMD_SCAN` from the `component_cmd_t` enum (NONE = 0, SCAN = 1, ...). -/
def COMPONENT_CMD_SCAN : Nat := 1

/-- `COMPONENT_CMD_VALIDATE` from the `component_cmd_t` enum. -/
def COMPONENT_CMD_VALIDATE : Nat := 2

/-- The message frame `msg_t` shared with `ap_messaging.c`.  `contents` is the
fixed-size payload buffer, modelled as a total byte-indexed map. -/
structure msg_t where
  opcode : Nat
  rng_chal : Nat
  contents : Nat → Nat

/-- Reading a little-endian `uint32_t` from the first four bytes of a
contents buffer, as in `*((uint32_t*) receive.contents)`. -/
def read32 (c : Nat → Nat) : Nat :=
  c 0 % 256 + 2 ^ 8 * (c 1 % 256) + 2 ^ 16 * (c 2 % 256) + 2 ^ 24 * (c 3 % 256)

/-- Environment-supplied outcome of one `issue_cmd` exchange: whether
`ap_transmit` succeeded, whether the polled receive succeeded, and the frame
the bus delivered into `receive` on a successful receive.
Modelled from the spec: `ap_transmit`/`ap_poll_recv` live in
`ap_messaging.c`, which is not among the given sources; per the spec the
polled receive populates the `receive` frame on arrival and fails on
timeout or challenge mismatch. -/
structure IssueOutcome where
  txOk : Bool
  rxOk : Bool
  msg : msg_t

/-- Whether a full transmit/receive exchange succeeded. -/
def issueOk (o : IssueOutcome) : Bool := o.txOk && o.rxOk

/-- `issue_cmd` from `application_processor.c`: transmit the current frame,
then one polled receive with challenge checking; the receive frame is
updated exactly when the exchange succeeds. -/
def issue_cmd (o : IssueOutcome) (receive : msg_t) : Int × msg_t :=
  if issueOk o then (SUCCESS_RETURN, o.msg) else (ERROR_RETURN, receive)

/-- The packed on-flash record `flash_entry` from `application_processor.c`:
magic, live-entry count, 32 id slots, keyed hash, IV.  `component_ids` is the
fixed array of 32 slots (invariant: length 32); `hash` and `iv` are byte
lists of externally fixed lengths `HASH_LEN` and `IV_LEN`. -/
structure flash_entry where
  flash_magic : Nat
  component_cnt : Nat
  component_ids : List Nat
  hash : List Nat
  iv : List Nat
deriving DecidableEq, Repr

/-- The active roster: the first `component_cnt` id slots, exactly the
indices the C loops `for (i = 0; i < flash_status.component_cnt; i++)`
visit. -/
def activeIds (st : flash_entry) : List Nat :=
  st.component_ids.take st.component_cnt

/-- `FLASH_ENC_LEN` from `application_processor.c`
(`(4 + 4 + 4*32) (flash_entry initial size) + 24`). -/
def FLASH_ENC_LEN : Nat := 160

/-- Little-endian byte serialization of a `uint32_t`. -/
def bytes32 (n : Nat) : List Nat :=
  [n % 256, n / 2 ^ 8 % 256, n / 2 ^ 16 % 256, n / 2 ^ 24 % 256]

/-- Little-endian byte serialization of a `uint64_t` (8 bytes), as used for
the two `rng_gen()` draws copied into the IV. -/
def bytes64 (n : Nat) : List Nat :=
  (List.range 8).map (fun k => n / 2 ^ (8 * k) % 256)

/-- Byte serialization of an array of `uint32_t` ids. -/
def serIds : List Nat → List Nat
  | [] => []
  | x :: xs => bytes32 x ++ serIds xs

/-- The bytes of the packed `flash_entry` header-plus-ids region
(`flash_magic`, `component_cnt`, `component_ids[32]`), in struct order. -/
def serializeHdrIds (st : flash_entry) : List Nat :=
  bytes32 st.flash_magic ++ bytes32 st.component_cnt ++ serIds st.component_ids

/-- The full byte image of the packed `flash_entry` struct in memory:
header-plus-ids region, then `hash`, then `iv` (`#pragma pack(push,1)`). -/
def flashBytes (st : flash_entry) : List Nat :=
  serializeHdrIds st ++ (st.hash ++ st.iv)

/-- The byte string passed to `hash()` in `init` and `attempt_replace`:
the first `FLASH_ENC_LEN - 24` bytes of the struct. -/
def hashInput (st : flash_entry) : List Nat :=
  (flashBytes st).take (FLASH_ENC_LEN - 24)

/-- The second `for` loop of `attempt_replace`: walk slots `0 ≤ i < cnt`
and overwrite the first slot holding `idOut` with `idIn`; `none` when no
slot in `[0, cnt)` holds `idOut`. -/
def replace_in_roster : List Nat → Nat → Nat → Nat → Option (List Nat)
  | _, 0, _, _ => none
  | [], _ + 1, _, _ => none
  | x :: xs, cnt + 1, idOut, idIn =>
    if x = idOut then some (idIn :: xs)
    else (replace_in_roster xs cnt idOut idIn).map (fun ys => x :: ys)

/-- Outcome classification of `attempt_replace` (which C branch returned). -/
inductive ReplaceResult where
  | duplicate
  | replaced (newSt : flash_entry)
  | notProvisioned
deriving DecidableEq, Repr

/-- A flash mutation performed by the firmware:
`flash_simple_erase_page` or `flash_simple_write` of (the encryption of)
a record.  The AES encryption applied before `flash_simple_write` is an
external primitive; the op records the plaintext record being persisted. -/
inductive FlashOp where
  | erasePage
  | writeRecord (st : flash_entry)

/-- Result of `attempt_replace` after operator authentication: the branch
taken, the in-memory `flash_status` afterwards, and the flash operations
performed (in order). -/
structure ReplaceOut where
  res : ReplaceResult
  st : flash_entry
  flashOps : List FlashOp

/-- The roster-mutation core of `attempt_replace` from
`application_processor.c` (after `validate_token` and input parsing):
duplicate check over the active slots, then find-and-overwrite of the
first slot holding `idOut`, hash recomputation over the first
`FLASH_ENC_LEN - 24` struct bytes, and erase+write.  `hashFn` is the
external keyed hash. -/
def attempt_replace_core (hashFn : List Nat → List Nat) (st : flash_entry)
    (idIn idOut : Nat) : ReplaceOut :=
  if idIn ∈ activeIds st then ⟨ReplaceResult.duplicate, st, []⟩
  else
    match replace_in_roster st.component_ids st.component_cnt idOut idIn with
    | none => ⟨ReplaceResult.notProvisioned, st, []⟩
    | some ids1 =>
      let st1 : flash_entry := { st with component_ids := ids1 }
      let st2 : flash_entry := { st1 with hash := hashFn (hashInput st1) }
      ⟨ReplaceResult.replaced st2, st2, [FlashOp.erasePage, FlashOp.writeRecord st2]⟩

/-- Hexadecimal digit value of a character, if any. -/
def hexDigit? (c : Char) : Option Nat :=
  if '0' ≤ c ∧ c ≤ '9' then some (c.toNat - '0'.toNat)
  else if 'a' ≤ c ∧ c ≤ 'f' then some (c.toNat - 'a'.toNat + 10)
  else if 'A' ≤ c ∧ c ≤ 'F' then some (c.toNat - 'A'.toNat + 10)
  else none

/-- Accumulate leading hex digits, stopping at the first non-digit. -/
def hexVal : List Char → Nat → Nat
  | [], acc => acc
  | c :: cs, acc =>
    match hexDigit? c with
    | some d => hexVal cs (16 * acc + d)
    | none => acc

/-- `sscanf(buf, "%x", &v)` as used by `attempt_replace`: skip leading
whitespace, then convert the maximal run of leading hex digits; the
conversion fails (`none`, leaving `v` untouched) when no hex digit
follows the whitespace. -/
def sscanf_hex (s : String) : Option Nat :=
  match s.data.dropWhile (fun c => c = ' ' || c = '\t' || c = '\n' || c = '\r') with
  | [] => none
  | c :: cs =>
    match hexDigit? c with
    | some _ => some (hexVal (c :: cs) 0)
    | none => none

/-- `attempt_replace` from the two `recv_input`/`sscanf` lines on: both ids
are initialized to `0` and only overwritten when `sscanf("%x")` converts,
then the roster-mutation core runs on the resulting 32-bit values. -/
def attempt_replace_full (hashFn : List Nat → List Nat) (st : flash_entry)
    (bufIn bufOut : String) : ReplaceOut :=
  attempt_replace_core hashFn st
    ((sscanf_hex bufIn).getD 0 % 2 ^ 32) ((sscanf_hex bufOut).getD 0 % 2 ^ 32)

/-- Environment for one run of `init` after the flash read and AES
decryption (both external): the decrypted record and the two `rng_gen()`
draws used if the record must be rebuilt. -/
structure InitEnv where
  loaded : flash_entry
  rng1 : Nat
  rng2 : Nat

/-- The integrity-check-and-rebuild portion of `init` from
`application_processor.c`: verify the magic and the keyed hash over the
first `FLASH_ENC_LEN - 24` struct bytes; on failure rebuild the record
from the compile-time defaults `COMPONENT_CNT`/`COMPONENT_IDS` (the
`memcpy` overwrites only the first `COMPONENT_CNT` id slots), recompute
the hash, draw a fresh 16-byte IV from two 64-bit `rng_gen()` calls, and
erase+write; on success nothing is written. -/
def init_core (hashFn : List Nat → List Nat) (magicConst : Nat)
    (defaultCnt : Nat) (defaultIds : List Nat) (env : InitEnv) :
    flash_entry × List FlashOp :=
  let st := env.loaded
  if st.flash_magic = magicConst ∧ st.hash = hashFn (hashInput st) then (st, [])
  else
    let st1 : flash_entry :=
      { st with flash_magic := magicConst, component_cnt := defaultCnt,
                component_ids := defaultIds.take defaultCnt
                  ++ st.component_ids.drop defaultCnt }
    let st2 : flash_entry := { st1 with hash := hashFn (hashInput st1) }
    let st3 : flash_entry := { st2 with iv := bytes64 env.rng1 ++ bytes64 env.rng2 }
    (st3, [FlashOp.erasePage, FlashOp.writeRecord st3])

/-- Console/bus events emitted by `scan_components`, in order. -/
inductive ScanEvent where
  | printP (id : Nat)
  | issueTo (addr : Nat) (opcode : Nat)
  | printF (id : Nat)
  | listSuccess
deriving DecidableEq, Repr

/-- The I2C blacklist test in `scan_components`
(`addr == 0x18 || addr == 0x28 || addr == 0x36`). -/
def scanBlacklisted (a : Nat) : Bool := a == 0x18 || a == 0x28 || a == 0x36

/-- The scan loop of `scan_components` over a list of candidate addresses:
skip blacklisted addresses; otherwise set `transmit.opcode` to the SCAN
command, issue the exchange, and on success print the first four received
bytes as a discovered id. -/
def scan_loop (env : Nat → IssueOutcome) : List Nat → List ScanEvent
  | [] => []
  | a :: rest =>
    if scanBlacklisted a then scan_loop env rest
    else if issueOk (env a) then
      ScanEvent.issueTo a COMPONENT_CMD_SCAN
        :: ScanEvent.printF (read32 (env a).msg.contents) :: scan_loop env rest
    else ScanEvent.issueTo a COMPONENT_CMD_SCAN :: scan_loop env rest

/-- `scan_components` from `application_processor.c`: print the provisioned
roster ids, scan bus addresses `0x8 ≤ addr < 0x78`, emit the `List`
success marker, and return `SUCCESS_RETURN`. -/
def scan_components (env : Nat → IssueOutcome) (st : flash_entry) :
    List ScanEvent × Int :=
  ((activeIds st).map ScanEvent.printP
      ++ scan_loop env (List.range' 0x8 0x70) ++ [ScanEvent.listSuccess],
    SUCCESS_RETURN)

/-- The bus addresses an event trace issued commands to, in order. -/
def issuedAddrs (l : List ScanEvent) : List Nat :=
  l.filterMap (fun e =>
    match e with
    | ScanEvent.issueTo a _ => some a
    | _ => none)

/-- Environment for one roster index of `validate_components`: the outcomes
of its two `issue_cmd` exchanges. -/
structure VStepEnv where
  step1 : IssueOutcome
  step2 : IssueOutcome

/-- Mutable state threaded through `validate_components`: the aggregate
result, the caller's `challenges` scratch array (an uninitialized VLA, so
its initial contents are arbitrary), the global `receive` frame, and the
trace of roster indices whose handshake was attempted. -/
structure VState where
  validate_result : Int
  challenges : List Nat
  receive : msg_t
  processed : List Nat

/-- One iteration of the `validate_components` loop for roster index `i`
holding id `id`: two `issue_cmd` exchanges; on full success save
`receive.rng_chal` into `challenges[i]` and check the echoed id; any
failure sets the aggregate result and continues. -/
def validate_step (e : VStepEnv) (id : Nat) (i : Nat) (s : VState) : VState :=
  let s1 : VState := { s with processed := s.processed ++ [i] }
  if issueOk e.step1 = false then { s1 with validate_result := ERROR_RETURN }
  else
    let s2 : VState := { s1 with receive := e.step1.msg }
    if issueOk e.step2 = false then { s2 with validate_result := ERROR_RETURN }
    else
      let s3 : VState :=
        { s2 with receive := e.step2.msg,
                  challenges := s2.challenges.set i e.step2.msg.rng_chal }
      if read32 e.step2.msg.contents = id then s3
      else { s3 with validate_result := ERROR_RETURN }

/-- The `validate_components` loop over the remaining roster ids, with `k`
the index of the first of them. -/
def validate_loop (env : Nat → VStepEnv) : List Nat → Nat → VState → VState
  | [], _, s => s
  | id :: rest, k, s => validate_loop env rest (k + 1) (validate_step (env k) id k s)

/-- `validate_components` from `application_processor.c`, over the active
roster, a caller-supplied (uninitialized) challenges array, and the
initial `receive` frame. -/
def validate_components (env : Nat → VStepEnv) (roster ch0 : List Nat)
    (r0 : msg_t) : VState :=
  validate_loop env roster 0 ⟨SUCCESS_RETURN, ch0, r0, []⟩

/-- Whether the `validate_components` iteration for a roster id fails:
either exchange fails, or the echoed first four bytes differ from the id. -/
def vStepFails (e : VStepEnv) (id : Nat) : Bool :=
  !issueOk e.step1 || !issueOk e.step2 || !(read32 e.step2.msg.contents == id)

/-- The last `rng_challenge` successfully received from a peer during its
`validate_components` iteration, as the spec describes it: the second
round's challenge when both exchanges succeed, the first round's when only
the first does, none when the first exchange already fails. -/
def lastRecvChal (e : VStepEnv) : Option Nat :=
  if issueOk e.step1 = false then none
  else if issueOk e.step2 then some e.step2.msg.rng_chal
  else some e.step1.msg.rng_chal

/-- Record of one `boot_components` iteration: the roster index, the value
`receive.rng_chal` was set to before transmitting, and the 32-bit verdict
written into `transmit.contents`. -/
structure BootStepRec where
  idx : Nat
  chalAtTransmit : Nat
  verdict : Nat
deriving DecidableEq, Repr

/-- Mutable state threaded through `boot_components`. -/
structure BState where
  boot_result : Int
  receive : msg_t
  trace : List BootStepRec

/-- One iteration of the `boot_components` loop for roster index `i`:
restore `receive.rng_chal` from the saved challenge, write the verdict
(`UINT32_MAX` when the running result is failing, else `0`) into
`transmit.contents`, issue the exchange, and check the echoed first four
received bytes. -/
def boot_step (o : IssueOutcome) (chal : Nat) (i : Nat) (s : BState) : BState :=
  let rcv : msg_t := { s.receive with rng_chal := chal }
  let verdict : Nat := if s.boot_result ≠ SUCCESS_RETURN then UINT32_MAX else 0
  let s1 : BState := { s with receive := rcv, trace := s.trace ++ [⟨i, chal, verdict⟩] }
  if issueOk o = false then { s1 with boot_result := ERROR_RETURN }
  else
    let s2 : BState := { s1 with receive := o.msg }
    if read32 o.msg.contents = 0 then s2
    else { s2 with boot_result := ERROR_RETURN }

/-- The `boot_components` loop over the remaining roster ids, with `k` the
index of the first of them. -/
def boot_loop (env : Nat → IssueOutcome) (challenges : List Nat) :
    List Nat → Nat → BState → BState
  | [], _, s => s
  | _ :: rest, k, s =>
    boot_loop env challenges rest (k + 1) (boot_step (env k) (challenges.getD k 0) k s)

/-- `boot_components` from `application_processor.c`, over the active
roster, the challenges captured by validation, and the aggregate
validation result. -/
def boot_components (env : Nat → IssueOutcome) (roster challenges : List Nat)
    (validate_result : Int) (r0 : msg_t) : BState :=
  boot_loop env challenges roster 0 ⟨validate_result, r0, []⟩

/-- Whether a `boot_components` exchange fully succeeds: the bus exchange
succeeds and the peer echoes a zero verdict. -/
def boot_step_ok (o : IssueOutcome) : Bool :=
  issueOk o && (read32 o.msg.contents == 0)

/-- The verdict sequence described by the amended claim: peer `k` receives
`0` exactly when the running result is still successful when its turn
comes, i.e. validation passed overall and every earlier boot exchange
succeeded with a zero echo; otherwise `UINT32_MAX`. -/
def spec_boot_verdicts (env : Nat → IssueOutcome) : Bool → Nat → Nat → List Nat
  | _, 0, _ => []
  | ok, n + 1, k =>
    (if ok then 0 else UINT32_MAX)
      :: spec_boot_verdicts env (ok && boot_step_ok (env k)) n (k + 1)

/-- Bus actions performed by `secure_receive`, in order. -/
inductive BusAct where
  | pollRecv (skipChal : Bool)
  | txAttempt
deriving DecidableEq, Repr

/-- Environment for one run of `secure_receive`: the outcomes of its first
polled receive (challenge check skipped), its middle `ap_transmit`
(whose integer result the code never reads), and its final polled
receive. -/
structure SRecvEnv where
  recv1Ok : Bool
  recv1Msg : msg_t
  txResult : Int
  recv2Ok : Bool
  recv2Msg : msg_t

/-- `secure_receive` from `application_processor.c`: polled receive with the
challenge check skipped, an unchecked `ap_transmit`, a final polled
receive, then the length-prefix byte `receive.contents[0]` is read,
lengths over 64 are refused, and otherwise that many bytes of
`receive.contents[1..]` are copied out.  Returns the C return value, the
bytes copied into the caller's buffer, and the bus actions performed. -/
def secure_receive (env : SRecvEnv) : Int × List Nat × List BusAct :=
  if env.recv1Ok = false then (-1, [], [BusAct.pollRecv true])
  else if env.recv2Ok = false then
    (-1, [], [BusAct.pollRecv true, BusAct.txAttempt, BusAct.pollRecv false])
  else
    let len : Nat := env.recv2Msg.contents 0 % 256
    if 64 < len then
      (-1, [], [BusAct.pollRecv true, BusAct.txAttempt, BusAct.pollRecv false])
    else
      ((len : Int), (List.range len).map (fun j => env.recv2Msg.contents (1 + j)),
        [BusAct.pollRecv true, BusAct.txAttempt, BusAct.pollRecv false])

/-- Whether any iteration of `validate_components` starting at roster
index `k` fails, in loop order. -/
def roster_any_fail (env : Nat → VStepEnv) : List Nat → Nat → Bool
  | [], _ => false
  | id :: rest, k => vStepFails (env k) id || roster_any_fail env rest (k + 1)

/-! ## Serialization lengths and the flash layout (C4) -/

theorem serIds_length (l : List Nat) : (serIds l).length = 4 * l.length := by
  induction l with
  | nil => simp [serIds]
  | cons x xs ih => simp [serIds, bytes32, ih]; ring

theorem serializeHdrIds_length (st : flash_entry) :
    (serializeHdrIds st).length = 8 + 4 * st.component_ids.length := by
  simp [serializeHdrIds, bytes32, serIds_length]
  omega

/-- C4 (amended): the header-plus-ids region of the flash record occupies
136 bytes (not 140); the encrypted span is `FLASH_ENC_LEN = 160` bytes,
covering that region plus the first 24 bytes of what follows it in memory;
and the keyed hash input is exactly the header-plus-ids region (the first
`FLASH_ENC_LEN - 24` bytes of the struct). -/
theorem C4_flash_layout (st : flash_entry) (h : st.component_ids.length = 32) :
    (serializeHdrIds st).length = 136 ∧
    FLASH_ENC_LEN = (serializeHdrIds st).length + 24 ∧
    hashInput st = serializeHdrIds st ∧
    (flashBytes st).take FLASH_ENC_LEN = serializeHdrIds st ++ (st.hash ++ st.iv).take 24 := by
  have hlen : (serializeHdrIds st).length = 136 := by
    rw [serializeHdrIds_length, h]
  refine ⟨hlen, by rw [hlen]; rfl, ?_, ?_⟩
  · show (flashBytes st).take (FLASH_ENC_LEN - 24) = serializeHdrIds st
    have h24 : FLASH_ENC_LEN - 24 = (serializeHdrIds st).length := by rw [hlen]; rfl
    rw [flashBytes, h24, List.take_left]
  · have h160 : FLASH_ENC_LEN = (serializeHdrIds st).length + 24 := by rw [hlen]; rfl
    rw [flashBytes, h160, List.take_append]

/-- C4 counterexample: on a concrete record with all 32 id slots the
header-plus-ids region measures 136 bytes, not the 140 the claim states. -/
theorem C4_counterexample :
    (serializeHdrIds ⟨1, 2, List.replicate 32 0, [3], [4]⟩).length = 136 ∧
    (serializeHdrIds ⟨1, 2, List.replicate 32 0, [3], [4]⟩).length ≠ 140 := by
  constructor <;> simp [serializeHdrIds_length]

/-- C4 witness: the amended layout facts at a concrete record. -/
theorem C4_witness :
    (serializeHdrIds ⟨1, 2, List.replicate 32 0, [3], [4]⟩).length = 136 ∧
    FLASH_ENC_LEN = (serializeHdrIds ⟨1, 2, List.replicate 32 0, [3], [4]⟩).length + 24 ∧
    hashInput ⟨1, 2, List.replicate 32 0, [3], [4]⟩
      = serializeHdrIds ⟨1, 2, List.replicate 32 0, [3], [4]⟩ ∧
    (flashBytes ⟨1, 2, List.replicate 32 0, [3], [4]⟩).take FLASH_ENC_LEN
      = serializeHdrIds ⟨1, 2, List.replicate 32 0, [3], [4]⟩
        ++ (([3] : List Nat) ++ [4]).take 24 :=
  C4_flash_layout ⟨1, 2, List.replicate 32 0, [3], [4]⟩ (by simp)

/-! ## Replace: duplicate failure touches nothing (C3) -/

/-- C3: when `id_in` already occupies an active roster slot,
`attempt_replace` returns on the duplicate branch with the in-memory
record unchanged and no flash erase or write performed, for every
`id_out`. -/
theorem C3_replace_duplicate_no_write (hashFn : List Nat → List Nat)
    (st : flash_entry) (idIn idOut : Nat) (h : idIn ∈ activeIds st) :
    attempt_replace_core hashFn st idIn idOut
      = ⟨ReplaceResult.duplicate, st, []⟩ := by
  simp [attempt_replace_core, h]

/-- C3 witness: a concrete duplicate replace leaves the record alone. -/
theorem C3_witness :
    11 ∈ activeIds ⟨7, 2, [10, 11], [9], [8]⟩ ∧
    attempt_replace_core (fun _ => []) ⟨7, 2, [10, 11], [9], [8]⟩ 11 99
      = ⟨ReplaceResult.duplicate, ⟨7, 2, [10, 11], [9], [8]⟩, []⟩ :=
  ⟨by decide, C3_replace_duplicate_no_write (fun _ => []) _ 11 99 (by decide)⟩

/-! ## Replace: unparsed console input means id 0 (C10) -/

/-- C10: `attempt_replace` initializes both ids to 0; when the
`Component ID In` line fails `sscanf("%x")` conversion the command
proceeds with id 0, so the duplicate check runs against id 0. -/
theorem C10_replace_unparsed_id_zero (hashFn : List Nat → List Nat)
    (st : flash_entry) (bufIn bufOut : String) (h : sscanf_hex bufIn = none) :
    attempt_replace_full hashFn st bufIn bufOut
      = attempt_replace_core hashFn st 0 ((sscanf_hex bufOut).getD 0 % 2 ^ 32) ∧
    (0 ∈ activeIds st →
      (attempt_replace_full hashFn st bufIn bufOut).res = ReplaceResult.duplicate) := by
  constructor
  · simp [attempt_replace_full, h]
  · intro h0
    simp [attempt_replace_full, h, attempt_replace_core, h0]

/-- C10 witness: a non-hex input line yields id 0, which collides with a
provisioned id 0 and reports a duplicate. -/
theorem C10_witness :
    sscanf_hex "hello" = none ∧
    (attempt_replace_full (fun _ => []) ⟨7, 1, [0, 5], [9], [8]⟩ "hello" "zz"
        = attempt_replace_core (fun _ => []) ⟨7, 1, [0, 5], [9], [8]⟩ 0
            ((sscanf_hex "zz").getD 0 % 2 ^ 32) ∧
      (0 ∈ activeIds ⟨7, 1, [0, 5], [9], [8]⟩ →
        (attempt_replace_full (fun _ => []) ⟨7, 1, [0, 5], [9], [8]⟩ "hello" "zz").res
          = ReplaceResult.duplicate)) :=
  ⟨by decide, C10_replace_unparsed_id_zero (fun _ => []) ⟨7, 1, [0, 5], [9], [8]⟩
    "hello" "zz" (by decide)⟩

/-! ## Replace: successful swap touches only the slot and the MAC (C7) -/

theorem replace_in_roster_spec (l : List Nat) :
    ∀ (cnt idOut idIn : Nat) (l2 : List Nat),
    replace_in_roster l cnt idOut idIn = some l2 →
    ∃ k, k < cnt ∧ l[k]? = some idOut ∧ l2 = l.set k idIn ∧
      ∀ j, j < k → l[j]? ≠ some idOut := by
  induction l with
  | nil =>
    intro cnt idOut idIn l2 h
    cases cnt <;> simp [replace_in_roster] at h
  | cons x xs ih =>
    intro cnt idOut idIn l2 h
    cases cnt with
    | zero => simp [replace_in_roster] at h
    | succ c =>
      by_cases hx : x = idOut
      · refine ⟨0, Nat.succ_pos _, ?_, ?_, ?_⟩
        · simp [hx]
        · simp [replace_in_roster, hx] at h
          simp [← h, List.set]
        · intro j hj; omega
      · simp [replace_in_roster, hx] at h
        obtain ⟨ys, hys, hl2⟩ := h
        obtain ⟨k, hk, hget, hset, hfirst⟩ := ih c idOut idIn ys hys
        refine ⟨k + 1, by omega, by simpa using hget, ?_, ?_⟩
        · rw [← hl2, hset]; rfl
        · intro j hj
          cases j with
          | zero => simpa using hx
          | succ j2 => simpa using hfirst j2 (by omega)

/-- C7: a successful replace (no duplicate, `id_out` found in an active
slot) rewrites exactly the first active slot holding `id_out` and the
stored MAC: magic, count, every other id slot and the IV are unchanged
(the IV is not re-rolled), and the record is erased and rewritten once.
`init` keeps the loaded IV exactly when magic and MAC verify, and draws a
fresh IV from the two CSPRNG words exactly when they do not. -/
theorem C7_replace_frame_effect (hashFn : List Nat → List Nat) (st : flash_entry)
    (idIn idOut : Nat) (ids1 : List Nat)
    (hdup : idIn ∉ activeIds st)
    (hfind : replace_in_roster st.component_ids st.component_cnt idOut idIn = some ids1) :
    ((attempt_replace_core hashFn st idIn idOut).st.flash_magic = st.flash_magic ∧
     (attempt_replace_core hashFn st idIn idOut).st.component_cnt = st.component_cnt ∧
     (attempt_replace_core hashFn st idIn idOut).st.iv = st.iv ∧
     (attempt_replace_core hashFn st idIn idOut).st.component_ids = ids1 ∧
     (attempt_replace_core hashFn st idIn idOut).res
        = ReplaceResult.replaced (attempt_replace_core hashFn st idIn idOut).st ∧
     (attempt_replace_core hashFn st idIn idOut).flashOps
        = [FlashOp.erasePage,
           FlashOp.writeRecord (attempt_replace_core hashFn st idIn idOut).st]) ∧
    (∃ k, k < st.component_cnt ∧ st.component_ids[k]? = some idOut ∧
       ids1 = st.component_ids.set k idIn ∧
       ∀ j, j < k → st.component_ids[j]? ≠ some idOut) ∧
    (∀ (magicConst defaultCnt : Nat) (defaultIds : List Nat) (env : InitEnv),
      (init_core hashFn magicConst defaultCnt defaultIds env).1.iv =
        if env.loaded.flash_magic = magicConst
            ∧ env.loaded.hash = hashFn (hashInput env.loaded)
        then env.loaded.iv
        else bytes64 env.rng1 ++ bytes64 env.rng2) := by
  refine ⟨?_, replace_in_roster_spec _ _ _ _ _ hfind, ?_⟩
  · simp [attempt_replace_core, hdup, hfind]
  · intro m dc di env
    by_cases hv : env.loaded.flash_magic = m ∧ env.loaded.hash = hashFn (hashInput env.loaded)
    · simp [init_core, hv]
    · simp only [init_core, if_neg hv]

/-! ## Scan: blacklist, coverage, roster report, success marker (C5) -/

theorem issuedAddrs_append (l1 l2 : List ScanEvent) :
    issuedAddrs (l1 ++ l2) = issuedAddrs l1 ++ issuedAddrs l2 :=
  List.filterMap_append l1 l2 _

theorem issuedAddrs_printP (ids : List Nat) :
    issuedAddrs (ids.map ScanEvent.printP) = [] := by
  induction ids with
  | nil => rfl
  | cons a l ih => simp [issuedAddrs, List.filterMap_cons]

theorem scan_loop_issued (env : Nat → IssueOutcome) (l : List Nat) :
    issuedAddrs (scan_loop env l) = l.filter (fun a => !scanBlacklisted a) := by
  induction l with
  | nil => rfl
  | cons a rest ih =>
    by_cases hb : scanBlacklisted a = true
    · simp [scan_loop, hb, List.filter_cons, ih]
    · by_cases ho : issueOk (env a) = true
      · simp [scan_loop, hb, ho, issuedAddrs, List.filterMap_cons, List.filter_cons]
        simp [issuedAddrs] at ih
        exact ih
      · simp [scan_loop, hb, ho, issuedAddrs, List.filterMap_cons, List.filter_cons]
        simp [issuedAddrs] at ih
        exact ih

theorem scan_loop_opcode (env : Nat → IssueOutcome) (l : List Nat) :
    ∀ a o, ScanEvent.issueTo a o ∈ scan_loop env l → o = COMPONENT_CMD_SCAN := by
  induction l with
  | nil => intro a o h; simp [scan_loop] at h
  | cons x rest ih =>
    intro a o h
    by_cases hb : scanBlacklisted x = true
    · exact ih a o (by simpa [scan_loop, hb] using h)
    · by_cases ho : issueOk (env x) = true
      · simp [scan_loop, hb, ho] at h
        rcases h with ⟨_, rfl⟩ | h
        · rfl
        · exact ih a o h
      · simp [scan_loop, hb, ho] at h
        rcases h with ⟨_, rfl⟩ | h
        · rfl
        · exact ih a o h

/-- C5: `scan_components` issues a SCAN command to exactly the addresses
in `[0x08, 0x78)` other than `0x18`, `0x28` and `0x36`; every issued
command carries the SCAN opcode; the provisioned roster ids are printed
before any scanning; and the trace ends with the `List` success marker
while the function returns success. -/
theorem C5_scan_components (env : Nat → IssueOutcome) (st : flash_entry) :
    (∀ a : Nat, a ∈ issuedAddrs (scan_components env st).1 ↔
      (0x8 ≤ a ∧ a < 0x78 ∧ a ≠ 0x18 ∧ a ≠ 0x28 ∧ a ≠ 0x36)) ∧
    (∀ a o, ScanEvent.issueTo a o ∈ (scan_components env st).1 →
      o = COMPONENT_CMD_SCAN) ∧
    (scan_components env st).1.take (activeIds st).length
      = (activeIds st).map ScanEvent.printP ∧
    (scan_components env st).1.getLast? = some ScanEvent.listSuccess ∧
    (scan_components env st).2 = SUCCESS_RETURN := by
  refine ⟨?_, ?_, ?_, ?_, rfl⟩
  · intro a
    have h1 : issuedAddrs (scan_components env st).1
        = (List.range' 0x8 0x70).filter (fun x => !scanBlacklisted x) := by
      simp only [scan_components]
      rw [issuedAddrs_append, issuedAddrs_append, issuedAddrs_printP,
        scan_loop_issued]
      simp [issuedAddrs]
    rw [h1]
    simp only [List.mem_filter, List.mem_range'_1, scanBlacklisted,
      Bool.not_eq_true', Bool.or_eq_false_iff, beq_eq_false_iff_ne, ne_eq]
    omega
  · intro a o h
    simp only [scan_components, List.mem_append, List.mem_map,
      List.mem_singleton] at h
    rcases h with (h | h) | h
    · obtain ⟨x, _, hx⟩ := h
      cases hx
    · exact scan_loop_opcode env _ a o h
    · cases h
  · have hlen : ((activeIds st).map ScanEvent.printP).length = (activeIds st).length :=
      List.length_map _ _
    show (((activeIds st).map ScanEvent.printP
        ++ scan_loop env (List.range' 0x8 0x70)) ++ [ScanEvent.listSuccess]).take
          (activeIds st).length = (activeIds st).map ScanEvent.printP
    rw [List.append_assoc]
    exact List.take_left' hlen
  · show ((activeIds st).map ScanEvent.printP
      ++ scan_loop env (List.range' 0x8 0x70) ++ [ScanEvent.listSuccess]).getLast?
        = some ScanEvent.listSuccess
    exact List.getLast?_concat _

/-! ## Validate: no short-circuit, aggregate result (C6) -/

theorem validate_step_result (e : VStepEnv) (id i : Nat) (s : VState) :
    (validate_step e id i s).validate_result
      = if vStepFails e id then ERROR_RETURN else s.validate_result := by
  by_cases h1 : issueOk e.step1 = true
  · by_cases h2 : issueOk e.step2 = true
    · by_cases h3 : read32 e.step2.msg.contents = id
      · simp [validate_step, vStepFails, h1, h2, h3]
      · simp [validate_step, vStepFails, h1, h2, h3]
    · simp [validate_step, vStepFails, h1, h2]
  · simp [validate_step, vStepFails, h1]

theorem validate_step_processed (e : VStepEnv) (id i : Nat) (s : VState) :
    (validate_step e id i s).processed = s.processed ++ [i] := by
  by_cases h1 : issueOk e.step1 = true
  · by_cases h2 : issueOk e.step2 = true
    · by_cases h3 : read32 e.step2.msg.contents = id
      · simp [validate_step, h1, h2, h3]
      · simp [validate_step, h1, h2, h3]
    · simp [validate_step, h1, h2]
  · simp [validate_step, h1]

theorem validate_step_challenges_length (e : VStepEnv) (id i : Nat) (s : VState) :
    (validate_step e id i s).challenges.length = s.challenges.length := by
  by_cases h1 : issueOk e.step1 = true
  · by_cases h2 : issueOk e.step2 = true
    · by_cases h3 : read32 e.step2.msg.contents = id
      · simp [validate_step, h1, h2, h3]
      · simp [validate_step, h1, h2, h3]
    · simp [validate_step, h1, h2]
  · simp [validate_step, h1]

theorem validate_step_challenges_ne (e : VStepEnv) (id i j : Nat) (s : VState)
    (hj : i ≠ j) :
    (validate_step e id i s).challenges[j]? = s.challenges[j]? := by
  by_cases h1 : issueOk e.step1 = true
  · by_cases h2 : issueOk e.step2 = true
    · by_cases h3 : read32 e.step2.msg.contents = id
      · simp [validate_step, h1, h2, h3, List.getElem?_set_ne hj]
      · simp [validate_step, h1, h2, h3, List.getElem?_set_ne hj]
    · simp [validate_step, h1, h2]
  · simp [validate_step, h1]

theorem validate_step_challenges_hit (e : VStepEnv) (id i : Nat) (s : VState)
    (h1 : issueOk e.step1 = true) (h2 : issueOk e.step2 = true)
    (hlt : i < s.challenges.length) :
    (validate_step e id i s).challenges[i]? = some e.step2.msg.rng_chal := by
  by_cases h3 : read32 e.step2.msg.contents = id
  · simp [validate_step, h1, h2, h3, List.getElem?_set_self hlt]
  · simp [validate_step, h1, h2, h3, List.getElem?_set_self hlt]

theorem validate_loop_result (env : Nat → VStepEnv) (l : List Nat) :
    ∀ (k : Nat) (s : VState),
    (validate_loop env l k s).validate_result
      = if roster_any_fail env l k then ERROR_RETURN else s.validate_result := by
  induction l with
  | nil => intro k s; simp [validate_loop, roster_any_fail]
  | cons id rest ih =>
    intro k s
    rw [validate_loop, ih (k + 1), validate_step_result]
    by_cases hf : vStepFails (env k) id = true
    · simp [roster_any_fail, hf]
    · simp [roster_any_fail, hf]

theorem validate_loop_processed (env : Nat → VStepEnv) (l : List Nat) :
    ∀ (k : Nat) (s : VState),
    (validate_loop env l k s).processed = s.processed ++ List.range' k l.length := by
  induction l with
  | nil => intro k s; simp [validate_loop]
  | cons id rest ih =>
    intro k s
    rw [validate_loop, ih (k + 1), validate_step_processed]
    simp [List.range'_succ]

theorem validate_loop_challenges_length (env : Nat → VStepEnv) (l : List Nat) :
    ∀ (k : Nat) (s : VState),
    (validate_loop env l k s).challenges.length = s.challenges.length := by
  induction l with
  | nil => intro k s; simp [validate_loop]
  | cons id rest ih =>
    intro k s
    rw [validate_loop, ih (k + 1), validate_step_challenges_length]

theorem validate_loop_challenges_lt (env : Nat → VStepEnv) (l : List Nat) :
    ∀ (k : Nat) (s : VState) (j : Nat), j < k →
    (validate_loop env l k s).challenges[j]? = s.challenges[j]? := by
  induction l with
  | nil => intro k s j _; simp [validate_loop]
  | cons id rest ih =>
    intro k s j hj
    rw [validate_loop, ih (k + 1) _ j (by omega),
      validate_step_challenges_ne _ _ _ _ _ (by omega)]

theorem validate_loop_challenges_hit (env : Nat → VStepEnv) (l : List Nat) :
    ∀ (k : Nat) (s : VState) (j : Nat), k ≤ j → j < k + l.length →
    j < s.challenges.length →
    issueOk (env j).step1 = true → issueOk (env j).step2 = true →
    (validate_loop env l k s).challenges[j]? = some ((env j).step2.msg.rng_chal) := by
  induction l with
  | nil => intro k s j h1 h2 _ _ _; simp at h2; omega
  | cons id rest ih =>
    intro k s j hkj hjl hjs h1 h2
    rcases Nat.eq_or_lt_of_le hkj with rfl | hlt
    · rw [validate_loop, validate_loop_challenges_lt env rest (k + 1) _ k (by omega)]
      exact validate_step_challenges_hit (env k) id k s h1 h2 hjs
    · rw [validate_loop]
      refine ih (k + 1) _ j (by omega) (by simp at hjl ⊢; omega) ?_ h1 h2
      rw [validate_step_challenges_length]
      exact hjs

theorem roster_any_fail_iff (env : Nat → VStepEnv) (l : List Nat) :
    ∀ k : Nat, roster_any_fail env l k = true ↔
      ∃ j, j < l.length ∧ vStepFails (env (k + j)) (l.getD j 0) = true := by
  induction l with
  | nil => intro k; simp [roster_any_fail]
  | cons id rest ih =>
    intro k
    rw [roster_any_fail, Bool.or_eq_true, ih (k + 1)]
    constructor
    · rintro (h | ⟨j, hj, hf⟩)
      · exact ⟨0, by simp, by simpa using h⟩
      · exact ⟨j + 1, by simpa using hj, by simpa [Nat.add_assoc, Nat.add_comm 1 j] using hf⟩
    · rintro ⟨j, hj, hf⟩
      cases j with
      | zero => exact Or.inl (by simpa using hf)
      | succ j2 =>
        refine Or.inr ⟨j2, by simpa using hj, ?_⟩
        simpa [Nat.add_assoc, Nat.add_comm 1 j2] using hf

/-- C6: `validate_components` attempts the handshake for every roster
index in order, with no short-circuit, and returns `ERROR_RETURN` exactly
when some component's exchange fails or echoes a wrong id, and
`SUCCESS_RETURN` exactly when none does. -/
theorem C6_validate_components (env : Nat → VStepEnv) (roster ch0 : List Nat)
    (r0 : msg_t) :
    ((validate_components env roster ch0 r0).processed = List.range roster.length) ∧
    ((validate_components env roster ch0 r0).validate_result = ERROR_RETURN ↔
      ∃ j, j < roster.length ∧ vStepFails (env j) (roster.getD j 0) = true) ∧
    ((validate_components env roster ch0 r0).validate_result = SUCCESS_RETURN ↔
      ∀ j, j < roster.length → vStepFails (env j) (roster.getD j 0) = false) := by
  have hres : (validate_components env roster ch0 r0).validate_result
      = if roster_any_fail env roster 0 then ERROR_RETURN else SUCCESS_RETURN :=
    validate_loop_result env roster 0 _
  have hiff := roster_any_fail_iff env roster 0
  simp only [Nat.zero_add] at hiff
  refine ⟨?_, ?_, ?_⟩
  · simp only [validate_components]
    rw [validate_loop_processed env roster 0, List.range_eq_range']
    simp
  · rw [hres]
    by_cases hf : roster_any_fail env roster 0 = true
    · rw [if_pos hf]
      exact ⟨fun _ => hiff.mp hf, fun _ => rfl⟩
    · rw [if_neg hf]
      exact ⟨fun h => absurd h (by decide), fun h => absurd (hiff.mpr h) hf⟩
  · rw [hres]
    by_cases hf : roster_any_fail env roster 0 = true
    · rw [if_pos hf]
      obtain ⟨j, hj, hfail⟩ := hiff.mp hf
      refine ⟨fun h => absurd h (by decide), fun h => ?_⟩
      have hj2 := h j hj
      rw [hfail] at hj2
      exact absurd hj2 (by decide)
    · rw [if_neg hf]
      refine ⟨fun _ j hj => ?_, fun _ => rfl⟩
      by_cases hx : vStepFails (env j) (roster.getD j 0) = true
      · exact absurd (hiff.mpr ⟨j, hj, hx⟩) hf
      · simpa using hx

/-! ## Boot: verdict propagation (C1) and challenge restoration (C2) -/

theorem boot_step_result_eq (o : IssueOutcome) (c i : Nat) (s : BState) :
    (boot_step o c i s).boot_result
      = if boot_step_ok o then s.boot_result else ERROR_RETURN := by
  by_cases h1 : issueOk o = true
  · by_cases h2 : read32 o.msg.contents = 0
    · simp [boot_step, boot_step_ok, h1, h2]
    · simp [boot_step, boot_step_ok, h1, h2]
  · simp [boot_step, boot_step_ok, h1]

theorem boot_step_trace_eq (o : IssueOutcome) (c i : Nat) (s : BState) :
    (boot_step o c i s).trace = s.trace
      ++ [⟨i, c, if s.boot_result ≠ SUCCESS_RETURN then UINT32_MAX else 0⟩] := by
  by_cases h1 : issueOk o = true
  · by_cases h2 : read32 o.msg.contents = 0
    · simp [boot_step, h1, h2]
    · simp [boot_step, h1, h2]
  · simp [boot_step, h1]

theorem boot_step_result_beq (o : IssueOutcome) (c i : Nat) (s : BState) :
    ((boot_step o c i s).boot_result == SUCCESS_RETURN)
      = ((s.boot_result == SUCCESS_RETURN) && boot_step_ok o) := by
  rw [boot_step_result_eq]
  by_cases h : boot_step_ok o = true
  · simp [h]
  · have hf : boot_step_ok o = false := by simpa using h
    rw [if_neg h, hf, Bool.and_false]
    decide

theorem boot_loop_verdicts (env : Nat → IssueOutcome) (chals l : List Nat) :
    ∀ (k : Nat) (s : BState),
    (boot_loop env chals l k s).trace.map BootStepRec.verdict
      = s.trace.map BootStepRec.verdict
        ++ spec_boot_verdicts env (s.boot_result == SUCCESS_RETURN) l.length k := by
  induction l with
  | nil => intro k s; simp [boot_loop, spec_boot_verdicts]
  | cons id rest ih =>
    intro k s
    rw [boot_loop, ih (k + 1), boot_step_trace_eq,
      boot_step_result_beq (env k) (chals.getD k 0) k s]
    by_cases hb : s.boot_result = SUCCESS_RETURN
    · have hbeq : (s.boot_result == SUCCESS_RETURN) = true := beq_iff_eq.mpr hb
      simp [spec_boot_verdicts, hb, hbeq]
    · have hbeq : (s.boot_result == SUCCESS_RETURN) = false :=
        beq_eq_false_iff_ne.mpr hb
      simp [spec_boot_verdicts, hb, hbeq]

theorem boot_loop_chals (env : Nat → IssueOutcome) (chals l : List Nat) :
    ∀ (k : Nat) (s : BState),
    (boot_loop env chals l k s).trace.map BootStepRec.chalAtTransmit
      = s.trace.map BootStepRec.chalAtTransmit
        ++ (List.range' k l.length).map (fun i => chals.getD i 0) := by
  induction l with
  | nil => intro k s; simp [boot_loop]
  | cons id rest ih =>
    intro k s
    rw [boot_loop, ih (k + 1), boot_step_trace_eq]
    simp [List.range'_succ]

theorem spec_boot_verdicts_false (env : Nat → IssueOutcome) :
    ∀ n k : Nat, spec_boot_verdicts env false n k = List.replicate n UINT32_MAX := by
  intro n
  induction n with
  | zero => intro k; rfl
  | succ m ih => intro k; simp [spec_boot_verdicts, List.replicate_succ, ih]

/-- C1 (amended): the verdict `boot_components` writes for peer `i` is `0`
exactly when validation reported overall success and every earlier boot
exchange succeeded with a zero echo, and `UINT32_MAX` otherwise (it
follows the running `boot_result`, not the validation result alone); in
particular, when validation fails every peer receives `UINT32_MAX`. -/
theorem C1_boot_verdicts (env : Nat → IssueOutcome) (roster chals : List Nat)
    (v : Int) (r0 : msg_t) :
    ((boot_components env roster chals v r0).trace.map BootStepRec.verdict
      = spec_boot_verdicts env (v == SUCCESS_RETURN) roster.length 0) ∧
    (v ≠ SUCCESS_RETURN →
      (boot_components env roster chals v r0).trace.map BootStepRec.verdict
        = List.replicate roster.length UINT32_MAX) := by
  have h1 : (boot_components env roster chals v r0).trace.map BootStepRec.verdict
      = spec_boot_verdicts env (v == SUCCESS_RETURN) roster.length 0 := by
    simp only [boot_components]
    rw [boot_loop_verdicts env chals roster 0]
    simp
  refine ⟨h1, fun hv => ?_⟩
  have hbeq : (v == SUCCESS_RETURN) = false := beq_eq_false_iff_ne.mpr hv
  rw [h1, hbeq, spec_boot_verdicts_false]

/-- C1 counterexample: with validation reporting success but the first
peer's boot exchange failing, the second peer is sent `UINT32_MAX`, not
the `0` the claim promises whenever validation succeeded. -/
theorem C1_counterexample :
    ((boot_components
        (fun i => if i = 0 then ⟨false, true, ⟨0, 0, fun _ => 0⟩⟩
                  else ⟨true, true, ⟨0, 0, fun _ => 0⟩⟩)
        [1, 2] [7, 8] SUCCESS_RETURN ⟨0, 0, fun _ => 0⟩).trace.map
          BootStepRec.verdict)[1]? = some UINT32_MAX ∧
    UINT32_MAX ≠ 0 :=
  ⟨rfl, by decide⟩

/-- C1 witness: with a failing validation result every peer's verdict is
`UINT32_MAX`. -/
theorem C1_witness :
    (boot_components (fun _ => ⟨true, true, ⟨0, 0, fun _ => 0⟩⟩) [5] [0]
        ERROR_RETURN ⟨0, 0, fun _ => 0⟩).trace.map BootStepRec.verdict
      = List.replicate 1 UINT32_MAX :=
  (C1_boot_verdicts (fun _ => ⟨true, true, ⟨0, 0, fun _ => 0⟩⟩) [5] [0]
    ERROR_RETURN ⟨0, 0, fun _ => 0⟩).2 (by decide)

/-- C2 (amended): for every roster index whose two validation exchanges
both succeed, `validate_components` stores in `challenges[i]` the
`rng_challenge` of the second (i.e. the last) receive from peer `i`; and
`boot_components` restores `receive.rng_chal` from `challenges[i]` before
transmitting to peer `i`, for every index.  (When an exchange of peer `i`
fails, `challenges[i]` keeps its previous — uninitialized — value.) -/
theorem C2_validate_boot_challenges (env : Nat → VStepEnv)
    (benv : Nat → IssueOutcome) (roster ch0 : List Nat) (r0 : msg_t) (v : Int)
    (i : Nat) (hi : i < roster.length) (hlen : ch0.length = roster.length)
    (h1 : issueOk (env i).step1 = true) (h2 : issueOk (env i).step2 = true) :
    ((validate_components env roster ch0 r0).challenges[i]?
      = lastRecvChal (env i)) ∧
    ((boot_components benv roster
        (validate_components env roster ch0 r0).challenges v r0).trace.map
          BootStepRec.chalAtTransmit
      = (List.range roster.length).map (fun k =>
          (validate_components env roster ch0 r0).challenges.getD k 0)) := by
  constructor
  · simp only [validate_components]
    rw [validate_loop_challenges_hit env roster 0 _ i (Nat.zero_le i)
      (by omega) (by show i < ch0.length; omega) h1 h2]
    simp [lastRecvChal, h1, h2]
  · simp only [boot_components]
    rw [boot_loop_chals benv _ roster 0]
    simp [List.range_eq_range']

/-- C2 counterexample: when peer 0's second exchange fails,
`challenges[0]` keeps its uninitialized value (here 99) and does not equal
the last `rng_challenge` received from peer 0 (here 5), contradicting the
claim's universal statement. -/
theorem C2_counterexample :
    (validate_components
        (fun _ => ⟨⟨true, true, ⟨0, 5, fun _ => 0⟩⟩,
                   ⟨false, true, ⟨0, 6, fun _ => 0⟩⟩⟩)
        [10] [99] ⟨0, 0, fun _ => 0⟩).challenges[0]? = some 99 ∧
    lastRecvChal ⟨⟨true, true, ⟨0, 5, fun _ => 0⟩⟩,
        ⟨false, true, ⟨0, 6, fun _ => 0⟩⟩⟩ = some 5 ∧
    (99 : Nat) ≠ 5 :=
  ⟨rfl, rfl, by decide⟩

/-- C2 witness: the amended statement at a concrete fully successful
handshake. -/
theorem C2_witness :
    ((validate_components (fun _ => ⟨⟨true, true, ⟨0, 42, fun _ => 9⟩⟩,
        ⟨true, true, ⟨0, 11, fun _ => 9⟩⟩⟩) [5] [0] ⟨0, 0, fun _ => 0⟩).challenges[0]?
      = lastRecvChal ⟨⟨true, true, ⟨0, 42, fun _ => 9⟩⟩,
          ⟨true, true, ⟨0, 11, fun _ => 9⟩⟩⟩) ∧
    ((boot_components (fun _ => ⟨true, true, ⟨0, 0, fun _ => 0⟩⟩) [5]
        (validate_components (fun _ => ⟨⟨true, true, ⟨0, 42, fun _ => 9⟩⟩,
          ⟨true, true, ⟨0, 11, fun _ => 9⟩⟩⟩) [5] [0] ⟨0, 0, fun _ => 0⟩).challenges
        SUCCESS_RETURN ⟨0, 0, fun _ => 0⟩).trace.map BootStepRec.chalAtTransmit
      = (List.range 1).map (fun k =>
          (validate_components (fun _ => ⟨⟨true, true, ⟨0, 42, fun _ => 9⟩⟩,
            ⟨true, true, ⟨0, 11, fun _ => 9⟩⟩⟩) [5] [0]
              ⟨0, 0, fun _ => 0⟩).challenges.getD k 0)) :=
  C2_validate_boot_challenges _ _ [5] [0] ⟨0, 0, fun _ => 0⟩ SUCCESS_RETURN 0
    (by decide) rfl rfl rfl

/-! ## Post-boot secure_receive (C8, C9) -/

/-- C8: when both receive legs succeed, a length prefix above 64 makes
`secure_receive` return a negative value with nothing copied; otherwise it
copies exactly `len` bytes of `receive.contents[1..]` into the caller's
buffer and returns the prefix value. -/
theorem C8_secure_receive (env : SRecvEnv)
    (h1 : env.recv1Ok = true) (h2 : env.recv2Ok = true) :
    (64 < env.recv2Msg.contents 0 % 256 →
      (secure_receive env).1 < 0 ∧ (secure_receive env).2.1 = []) ∧
    (env.recv2Msg.contents 0 % 256 ≤ 64 →
      (secure_receive env).1 = (env.recv2Msg.contents 0 % 256 : Nat) ∧
      (secure_receive env).2.1 = (List.range (env.recv2Msg.contents 0 % 256)).map
        (fun j => env.recv2Msg.contents (1 + j)) ∧
      (secure_receive env).2.1.length = env.recv2Msg.contents 0 % 256) := by
  constructor
  · intro hlen
    simp [secure_receive, h1, h2, hlen]
  · intro hlen
    have hnot : ¬ 64 < env.recv2Msg.contents 0 % 256 := by omega
    simp [secure_receive, h1, h2, hnot]

/-- C8 witness: a 10-byte payload is copied out byte for byte. -/
theorem C8_witness :
    (secure_receive ⟨true, ⟨0, 0, fun _ => 0⟩, 0, true, ⟨0, 0, fun j => 10 + j⟩⟩).1
      = 10 ∧
    (secure_receive ⟨true, ⟨0, 0, fun _ => 0⟩, 0, true, ⟨0, 0, fun j => 10 + j⟩⟩).2.1
      = [11, 12, 13, 14, 15, 16, 17, 18, 19, 20] := by
  have h := (C8_secure_receive
    ⟨true, ⟨0, 0, fun _ => 0⟩, 0, true, ⟨0, 0, fun j => 10 + j⟩⟩ rfl rfl).2
    (by decide)
  refine ⟨?_, ?_⟩
  · rw [h.1]; rfl
  · rw [h.2.1]; rfl

/-- C9: `secure_receive` never inspects the result of its middle
`ap_transmit`: its entire result is invariant under that outcome, and
whenever the first receive succeeds it still performs the transmit and
then proceeds to the final polled receive. -/
theorem C9_secure_receive_ignores_tx (env : SRecvEnv) (t : Int) :
    secure_receive { env with txResult := t } = secure_receive env ∧
    (env.recv1Ok = true →
      (secure_receive env).2.2
        = [BusAct.pollRecv true, BusAct.txAttempt, BusAct.pollRecv false]) := by
  constructor
  · rfl
  · intro h
    by_cases h2 : env.recv2Ok = true
    · by_cases h3 : 64 < env.recv2Msg.contents 0 % 256
      · simp [secure_receive, h, h2, h3]
      · simp [secure_receive, h, h2, h3]
    · simp [secure_receive, h, h2]

/-- C9 witness: changing the middle transmit outcome changes nothing, and
the final receive is still attempted. -/
theorem C9_witness :
    secure_receive ⟨true, ⟨0, 0, fun _ => 0⟩, 7, true, ⟨0, 0, fun _ => 0⟩⟩
      = secure_receive ⟨true, ⟨0, 0, fun _ => 0⟩, 0, true, ⟨0, 0, fun _ => 0⟩⟩ ∧
    (secure_receive ⟨true, ⟨0, 0, fun _ => 0⟩, 0, true, ⟨0, 0, fun _ => 0⟩⟩).2.2
      = [BusAct.pollRecv true, BusAct.txAttempt, BusAct.pollRecv false] :=
  ⟨(C9_secure_receive_ignores_tx
      ⟨true, ⟨0, 0, fun _ => 0⟩, 0, true, ⟨0, 0, fun _ => 0⟩⟩ 7).1,
   (C9_secure_receive_ignores_tx
      ⟨true, ⟨0, 0, fun _ => 0⟩, 0, true, ⟨0, 0, fun _ => 0⟩⟩ 0).2 rfl⟩

/-- C7 witness: the frame-effect statement at a concrete roster, swapping
id 6 out for id 4. -/
theorem C7_witness :
    (((attempt_replace_core (fun _ => [9]) ⟨7, 2, [5, 6], [3], [1, 2]⟩ 4 6).st.flash_magic
        = (⟨7, 2, [5, 6], [3], [1, 2]⟩ : flash_entry).flash_magic ∧
      (attempt_replace_core (fun _ => [9]) ⟨7, 2, [5, 6], [3], [1, 2]⟩ 4 6).st.component_cnt
        = (⟨7, 2, [5, 6], [3], [1, 2]⟩ : flash_entry).component_cnt ∧
      (attempt_replace_core (fun _ => [9]) ⟨7, 2, [5, 6], [3], [1, 2]⟩ 4 6).st.iv
        = (⟨7, 2, [5, 6], [3], [1, 2]⟩ : flash_entry).iv ∧
      (attempt_replace_core (fun _ => [9]) ⟨7, 2, [5, 6], [3], [1, 2]⟩ 4 6).st.component_ids
        = [5, 4] ∧
      (attempt_replace_core (fun _ => [9]) ⟨7, 2, [5, 6], [3], [1, 2]⟩ 4 6).res
        = ReplaceResult.replaced
            (attempt_replace_core (fun _ => [9]) ⟨7, 2, [5, 6], [3], [1, 2]⟩ 4 6).st ∧
      (attempt_replace_core (fun _ => [9]) ⟨7, 2, [5, 6], [3], [1, 2]⟩ 4 6).flashOps
        = [FlashOp.erasePage, FlashOp.writeRecord
            (attempt_replace_core (fun _ => [9]) ⟨7, 2, [5, 6], [3], [1, 2]⟩ 4 6).st]) ∧
     (∃ k, k < (⟨7, 2, [5, 6], [3], [1, 2]⟩ : flash_entry).component_cnt ∧
        (⟨7, 2, [5, 6], [3], [1, 2]⟩ : flash_entry).component_ids[k]? = some 6 ∧
        [5, 4] = (⟨7, 2, [5, 6], [3], [1, 2]⟩ : flash_entry).component_ids.set k 4 ∧
        ∀ j, j < k →
          (⟨7, 2, [5, 6], [3], [1, 2]⟩ : flash_entry).component_ids[j]? ≠ some 6) ∧
     (∀ (magicConst defaultCnt : Nat) (defaultIds : List Nat) (env : InitEnv),
       (init_core (fun _ => [9]) magicConst defaultCnt defaultIds env).1.iv =
         if env.loaded.flash_magic = magicConst
             ∧ env.loaded.hash = (fun _ => [9]) (hashInput env.loaded)
         then env.loaded.iv
         else bytes64 env.rng1 ++ bytes64 env.rng2)) :=
  C7_replace_frame_effect (fun _ => [9]) ⟨7, 2, [5, 6], [3], [1, 2]⟩ 4 6 [5, 4]
    (by decide) (by decide)
